import Mathlib

/-!
Verification of the dishka dependency-injection library's
`dependency_source.py` module and (where the container implementation is
absent from the sources) a model of the container lifecycle built from the
specification.

The embedding mirrors the Python source: Python type-hint expressions become
the inductive `TypeHint` (with `get_origin`/`get_args` behaviour folded into
pattern matching), the `FactoryType` enum becomes a Lean inductive, the
`Factory`/`Alias`/`Decorator` classes become structures, and fallible Python
code (raising `TypeError`/`AttributeError`) returns `Except PyError`.
-/

namespace Dishka

/-- Python type-hint expressions, as far as `dependency_source.py` inspects
them: plain classes, `Any`, `None`, and the iterable/iterator/generator
generic aliases (sync and async).  `get_args` of `Generator[y, s, r]` is
`(y, s, r)`; of `AsyncGenerator[y, s]` is `(y, s)`. -/
inductive TypeHint where
  | classRef (name : String)
  | anyHint
  | noneHint
  | iterable (a : TypeHint)
  | iterator (a : TypeHint)
  | generator (y s r : TypeHint)
  | asyncIterable (a : TypeHint)
  | asyncIterator (a : TypeHint)
  | asyncGenerator (y s : TypeHint)
  deriving DecidableEq, Repr

/-- `class FactoryType(Enum)` from `dependency_source.py`. -/
inductive FactoryType where
  | GENERATOR
  | ASYNC_GENERATOR
  | FACTORY
  | ASYNC_FACTORY
  | VALUE
  deriving DecidableEq, Repr

/-- Python exceptions that the embedded code can raise. -/
inductive PyError where
  | typeError (msg : String)
  | attributeError (msg : String)
  deriving DecidableEq, Repr

/-- The `source` field of a `Factory`: the producing callable.  `identity`
is the module-level `_identity` function used by `Alias.as_factory`;
`boundMethod i n` is the result of `function.__get__(instance)` on the
provider instance with id `i`. -/
inductive Source where
  | identity
  | func (name : String)
  | boundMethod (instId : Nat) (name : String)
  | classSource (name : String)
  | staticMeth (name : String)
  | callableObj (objId : Nat)
  deriving DecidableEq, Repr

/-- `def _identity(x): return x` from `dependency_source.py`. -/
def _identity {α : Type} (x : α) : α := x

/-- Calling a `Source` on positional argument values.  Only `_identity` has
behaviour defined inside `dependency_source.py` itself: applied to a single
argument it returns it unchanged; other sources are external callables whose
behaviour this module does not define. -/
def callSource {α : Type} : Source → List α → Option α
  | .identity, [x] => some (_identity x)
  | _, _ => none

/-- Scopes.  `BaseScope` members are enum values with a position in the
scope order; `none` models Python `None` ("unscoped").  Enum members are
truthy, so `self.scope or instance.scope` is `Option.orElse` here. -/
abbrev BScope := Nat

/-- `class Factory` from `dependency_source.py` (`__slots__` fields).
`provides` can be Python `None` (`TypeHint.noneHint`) when neither an
explicit `provides` nor a return annotation is available. -/
structure Factory where
  dependencies : List TypeHint
  source : Source
  provides : TypeHint
  scope : Option BScope
  type : FactoryType
  is_to_bind : Bool
  cache : Bool
  deriving DecidableEq, Repr

/-- A provider instance as seen by `Factory.__get__`: it has an identity
(used to bind methods to it) and a `scope` attribute. -/
structure ProviderInstance where
  instId : Nat
  scope : Option BScope
  deriving DecidableEq, Repr

/-- `source.__get__(instance, owner)`: a plain function becomes a method
bound to the instance; other descriptors are returned as-is. -/
def bindSource (s : Source) (instId : Nat) : Source :=
  match s with
  | .func n => .boundMethod instId n
  | s => s

/-- `Factory.__get__(self, instance, owner)`.  Mirrors the source order of
operations: the line `scope = self.scope or instance.scope` runs BEFORE the
`if instance is None` check, so with `self.scope` falsy and no instance it
raises `AttributeError`; with an instance, the result is a new `Factory`
with `is_to_bind=False`, the computed scope, and (when `is_to_bind` was
set) the source bound to the instance and the first dependency dropped. -/
def Factory.get (f : Factory) (inst? : Option ProviderInstance) :
    Except PyError Factory := do
  let scope : Option BScope ←
    match f.scope with
    | some s => pure (some s)
    | none =>
      match inst? with
      | none => throw (.attributeError
          "NoneType object has no attribute scope")
      | some i => pure i.scope
  match inst? with
  | none => pure f
  | some inst =>
    if f.is_to_bind then
      pure {
        dependencies := f.dependencies.drop 1,
        source := bindSource f.source inst.instId,
        provides := f.provides,
        scope := scope,
        type := f.type,
        is_to_bind := false,
        cache := f.cache,
      }
    else
      pure {
        dependencies := f.dependencies,
        source := f.source,
        provides := f.provides,
        scope := scope,
        type := f.type,
        is_to_bind := false,
        cache := f.cache,
      }

/-- `class Alias` from `dependency_source.py`. -/
structure Alias where
  source : TypeHint
  provides : TypeHint
  cache : Bool
  deriving DecidableEq, Repr

/-- `Alias.as_factory(self, scope)`: a trivial identity `Factory` whose sole
dependency is the aliased type. -/
def Alias.as_factory (a : Alias) (scope : BScope) : Factory :=
  { scope := some scope,
    source := .identity,
    provides := a.provides,
    is_to_bind := false,
    dependencies := [a.source],
    type := .FACTORY,
    cache := a.cache }

/-- `class Decorator` from `dependency_source.py`: `__init__` stores the
wrapped factory and copies its `provides`. -/
structure Decorator where
  factory : Factory
  provides : TypeHint
  deriving DecidableEq, Repr

/-- `Decorator.__init__(self, factory)`. -/
def Decorator.ofFactory (f : Factory) : Decorator :=
  { factory := f, provides := f.provides }

/-- `Decorator.as_factory(self, *, scope, new_dependency, cache)`: the
dependency list is rebuilt with `new_dependency if dep is self.provides
else dep` for each entry (`is` on interned type objects is equality). -/
def Decorator.as_factory (d : Decorator) (scope : Option BScope)
    (new_dependency : TypeHint) (cache : Bool) : Factory :=
  { scope := scope,
    source := d.factory.source,
    provides := d.factory.provides,
    is_to_bind := d.factory.is_to_bind,
    dependencies := d.factory.dependencies.map
      (fun dep => if dep = d.provides then new_dependency else dep),
    type := d.factory.type,
    cache := cache }

/-- One parameter of a Python callable's signature: its name and its
annotation, when present (`get_type_hints` only reports annotated names). -/
structure PyParam where
  name : String
  hint : Option TypeHint
  deriving DecidableEq, Repr

/-- A Python function as `dependency_source.py` inspects it: ordered
parameters, the return annotation (`TypeHint.noneHint` when absent, matching
`hints.pop("return", None)`), and the `inspect` predicates used by
`_guess_factory_type`. -/
structure PyFunction where
  name : String
  params : List PyParam
  returnHint : TypeHint
  isAsyncGen : Bool
  isGen : Bool
  isCoroutine : Bool
  deriving DecidableEq, Repr

/-- A Python class as `_make_factory_by_class` inspects it: the resolved
`__init__` member hints (name, hint) pairs in order, possibly including a
`"return"` entry which gets popped. -/
structure PyClass where
  name : String
  initHints : List (String × TypeHint)
  deriving DecidableEq, Repr

/-- `def _guess_factory_type(source)`. -/
def _guess_factory_type (f : PyFunction) : FactoryType :=
  if f.isAsyncGen then .ASYNC_GENERATOR
  else if f.isGen then .GENERATOR
  else if f.isCoroutine then .ASYNC_FACTORY
  else .FACTORY

/-- `def _async_generator_result(possible_dependency)`: the first branch
`origin in (AsyncIterable, AsyncIterator, AsyncGenerator)` returns
`get_args(...)[0]`; anything else raises `TypeError`. -/
def _async_generator_result (h : TypeHint) : Except PyError TypeHint :=
  match h with
  | .asyncIterable a => .ok a
  | .asyncIterator a => .ok a
  | .asyncGenerator y _ => .ok y
  | _ => .error (.typeError "Unsupported return type for async generator")

/-- `def _generator_result(possible_dependency)`: `Iterable` and `Iterator`
return `get_args(...)[0]`; `Generator` returns `get_args(...)[1]` (the
send-type slot of `Generator[y, s, r]`); anything else raises `TypeError`. -/
def _generator_result (h : TypeHint) : Except PyError TypeHint :=
  match h with
  | .iterable a => .ok a
  | .iterator a => .ok a
  | .generator _ s _ => .ok s
  | _ => .error (.typeError "Unsupported return type for generator")

/-- `def _clean_result_hint(factory_type, possible_dependency)`. -/
def _clean_result_hint (factory_type : FactoryType) (h : TypeHint) :
    Except PyError TypeHint :=
  match factory_type with
  | .ASYNC_GENERATOR => _async_generator_result h
  | .GENERATOR => _generator_result h
  | _ => .ok h

/-- The annotated-parameter part of `get_type_hints(source)`: `(name, hint)`
for each annotated parameter, in order.  The `"return"` key is modelled
separately by `PyFunction.returnHint`. -/
def paramHints (ps : List PyParam) : List (String × TypeHint) :=
  ps.filterMap (fun p => p.hint.map (fun h => (p.name, h)))

/-- Python falsiness of a `provides` argument: only `None` is falsy among
the values that realistically appear. -/
def providesAbsent (provides : TypeHint) : Bool :=
  provides = TypeHint.noneHint

/-- `def _make_factory_by_method(*, provides, scope, source, cache)`:
the first parameter, when present, is treated as `self` (prepending an
`Any` hint when it is unannotated) and sets `is_to_bind`; the `"return"`
hint is popped and used to infer `provides` when it was not given. -/
def _make_factory_by_method (provides : TypeHint) (scope : Option BScope)
    (f : PyFunction) (cache : Bool) : Except PyError Factory := do
  let factory_type := _guess_factory_type f
  let hints0 := paramHints f.params
  let hints :=
    match f.params with
    | [] => hints0
    | p :: _ =>
      if (hints0.lookup p.name).isSome then hints0
      else (p.name, TypeHint.anyHint) :: hints0
  let is_to_bind :=
    match f.params with
    | [] => false
    | _ :: _ => true
  let dependencies := hints.map Prod.snd
  let provides ←
    if providesAbsent provides then
      _clean_result_hint factory_type f.returnHint
    else
      pure provides
  pure {
    dependencies := dependencies,
    type := factory_type,
    source := .func f.name,
    scope := scope,
    provides := provides,
    is_to_bind := is_to_bind,
    cache := cache,
  }

/-- `def _make_factory_by_class(*, provides, scope, source, cache)`:
dependencies are the resolved `__init__` hints without `"return"`; when no
`provides` is given the class itself is provided; always FACTORY kind,
never to-bind. -/
def _make_factory_by_class (provides : TypeHint) (scope : Option BScope)
    (c : PyClass) (cache : Bool) : Except PyError Factory :=
  let hints := c.initHints.filter (fun kv => kv.1 ≠ "return")
  let dependencies := hints.map Prod.snd
  let provides :=
    if providesAbsent provides then TypeHint.classRef c.name else provides
  .ok {
    dependencies := dependencies,
    type := .FACTORY,
    source := .classSource c.name,
    scope := scope,
    provides := provides,
    is_to_bind := false,
    cache := cache,
  }

/-- `def _make_factory_by_static_method(*, provides, scope, source, cache)`:
no `self` handling, `is_to_bind` is always false. -/
def _make_factory_by_static_method (provides : TypeHint)
    (scope : Option BScope) (f : PyFunction) (cache : Bool) :
    Except PyError Factory := do
  let factory_type := _guess_factory_type f
  let dependencies := (paramHints f.params).map Prod.snd
  let provides ←
    if providesAbsent provides then
      _clean_result_hint factory_type f.returnHint
    else
      pure provides
  pure {
    dependencies := dependencies,
    type := factory_type,
    source := .staticMeth f.name,
    scope := scope,
    provides := provides,
    is_to_bind := false,
    cache := cache,
  }

/-- `def _make_factory_by_other_callable(...)`: build a factory from the
underlying function (`source.__func__` for a bound method, else
`type(source).__call__`), then drop the `self` dependency if it was to-bind
and store the callable object itself as the source. -/
def _make_factory_by_other_callable (provides : TypeHint)
    (scope : Option BScope) (objId : Nat) (toCheck : PyFunction)
    (cache : Bool) : Except PyError Factory := do
  let factory ← _make_factory_by_method provides scope toCheck cache
  let dependencies :=
    if factory.is_to_bind then factory.dependencies.drop 1
    else factory.dependencies
  pure {
    dependencies := dependencies,
    type := factory.type,
    source := .callableObj objId,
    scope := scope,
    provides := factory.provides,
    is_to_bind := false,
    cache := cache,
  }

/-- A `source` argument to `make_factory`, discriminated the way the chain
of `isclass` / `isfunction` / `isinstance(classmethod)` /
`isinstance(staticmethod)` / `callable` tests discriminates it.
`notCallable t` is any other (non-callable) object of type named `t`. -/
inductive MFSource where
  | cls (c : PyClass)
  | func (f : PyFunction)
  | classm (f : PyFunction)
  | staticm (f : PyFunction)
  | callObj (objId : Nat) (call : PyFunction)
  | notCallable (typeName : String)
  deriving DecidableEq, Repr

/-- `def make_factory(*, provides, scope, source, cache)`: dispatch on the
kind of `source`; a source that is none of class / function / classmethod /
staticmethod / callable raises `TypeError`. -/
def make_factory (provides : TypeHint) (scope : Option BScope)
    (source : MFSource) (cache : Bool) : Except PyError Factory :=
  match source with
  | .cls c => _make_factory_by_class provides scope c cache
  | .func f => _make_factory_by_method provides scope f cache
  | .classm f => _make_factory_by_method provides scope f cache
  | .staticm f => _make_factory_by_static_method provides scope f cache
  | .callObj objId call =>
      _make_factory_by_other_callable provides scope objId call cache
  | .notCallable _ => .error (.typeError "Cannot use source as a factory")

/-! ## Container lifecycle model

The repository's `container.py` / `async_container.py` are not among the
sources; the definitions below are built from the specification's
description of the resolution algorithm (§4.2), the close protocol (§4.3),
the sync/async variants (§4.4) and the end-to-end test scenarios. -/

/-- Runtime values: integers and references to heap objects. -/
inductive CValue where
  | intV (n : Int)
  | ref (id : Nat)
  deriving DecidableEq, Repr

/-- A `ClassA`-style instance from the test scenario: an `int` dependency
and a `closed` flag, initially false. -/
structure AObj where
  dep : Int
  closed : Bool
  deriving DecidableEq, Repr

/-- The producing operations appearing in the modelled scenarios: a
constant integer, and the `ClassA(dep)` allocator. -/
inductive Producer where
  | constInt (n : Int)
  | mkClassA
  deriving DecidableEq, Repr

/-- Modelled from the spec: a normalized FactoryRecord as the container
(absent from the sources) consumes it — provided type, ordered dependency
types, kind, producing operation and cache flag (single-scope model). -/
structure SFactory where
  provides : TypeHint
  dependencies : List TypeHint
  kind : FactoryType
  producer : Producer
  cache : Bool
  deriving DecidableEq, Repr

/-- A deferred cleanup continuation: resuming a generator whose body after
the first yield sets the produced object's `closed` flag (the test
scenario's second resumption), or a cleanup with no observable effect. -/
inductive ExitAction where
  | setClosed (id : Nat)
  | noop
  deriving DecidableEq, Repr

/-- Modelled from the spec: the mutable state of one container (absent from
the sources) — heap of allocated objects, per-type instance cache, the
LIFO `exitActions` list, and the closed flag. -/
structure CState where
  heap : List AObj
  cache : List (TypeHint × CValue)
  exitActions : List ExitAction
  closed : Bool
  deriving DecidableEq, Repr

/-- The state of a freshly opened container: everything empty. -/
def CState.empty : CState := ⟨[], [], [], false⟩

/-- Errors of the resolution/lifecycle engine (§6, §7). -/
inductive RErr where
  | noFactory
  | closedContainer
  | constructionFailed
  | notSupportedBySync
  | fuelExhausted
  deriving DecidableEq, Repr

/-- Association lookup in the container cache. -/
def cacheLookup (c : List (TypeHint × CValue)) (t : TypeHint) :
    Option CValue :=
  match c with
  | [] => none
  | (k, v) :: rest => if k = t then some v else cacheLookup rest t

/-- Set the `closed` flag of heap object `id`. -/
def setClosedAt (heap : List AObj) (id : Nat) : List AObj :=
  heap.mapIdx (fun i o => if i = id then { o with closed := true } else o)

/-- Run one exit action against the container state. -/
def applyAction (a : ExitAction) (st : CState) : CState :=
  match a with
  | .setClosed id => { st with heap := setClosedAt st.heap id }
  | .noop => st

/-- Run a list of exit actions front to back, also returning the trace of
actions in the order they executed. -/
def runActions (acts : List ExitAction) (st : CState) :
    CState × List ExitAction :=
  match acts with
  | [] => (st, [])
  | a :: rest =>
    let st1 := applyAction a st
    let (st2, tr) := runActions rest st1
    (st2, a :: tr)

/-- Modelled from the spec: `close(container)` (§4.3, single container) —
run `exitActions` in strict reverse-of-registration order, then mark the
container closed and clear the cache.  Returns the closed state and the
trace of executed actions. -/
def closeContainer (st : CState) : CState × List ExitAction :=
  let (st1, tr) := runActions st.exitActions.reverse st
  ({ st1 with closed := true, cache := [] }, tr)

/-- Kinds whose producing operation may suspend; the plain container must
refuse them (§4.4). -/
def syncSupported : FactoryType → Bool
  | .ASYNC_FACTORY => false
  | .ASYNC_GENERATOR => false
  | _ => true

/-- Kinds that register a cleanup continuation after producing a value. -/
def isGeneratorKind : FactoryType → Bool
  | .GENERATOR => true
  | .ASYNC_GENERATOR => true
  | _ => false

/-- Find the factory record registered for a type. -/
def findFactory (g : List SFactory) (t : TypeHint) : Option SFactory :=
  g.find? (fun f => f.provides = t)

/-- The cleanup continuation registered for a produced value: resuming the
generator will set the produced object's `closed` flag. -/
def cleanupFor (v : CValue) : ExitAction :=
  match v with
  | .ref id => .setClosed id
  | _ => .noop

/-- Invoke a producing operation on resolved argument values. -/
def runProducer (p : Producer) (args : List CValue) (st : CState) :
    Option (CValue × CState) :=
  match p, args with
  | .constInt n, [] => some (.intV n, st)
  | .mkClassA, [.intV d] =>
    some (.ref st.heap.length, { st with heap := st.heap ++ [⟨d, false⟩] })
  | _, _ => none

/-- Resolve a list of dependency types left to right with the given
single-type resolver, threading the container state. -/
def resolveDeps
    (resolve : TypeHint → CState → Except RErr (CValue × CState)) :
    List TypeHint → CState → Except RErr (List CValue × CState)
  | [], st => .ok ([], st)
  | t :: rest, st =>
    match resolve t st with
    | .error e => .error e
    | .ok (v, st1) =>
      match resolveDeps resolve rest st1 with
      | .error e => .error e
      | .ok (vs, st2) => .ok (v :: vs, st2)

/-- Modelled from the spec: `resolve` of the plain (blocking) container
(§4.2, single scope, the `container.py` implementation being absent from
the sources): cache hit, factory lookup, refusal of suspending kinds
(§4.4), recursive dependency resolution, invocation, generator cleanup
registration, cache population.  `fuel` bounds recursion depth in place of
the runtime's cycle tracking. -/
def resolveSync (g : List SFactory) :
    Nat → TypeHint → CState → Except RErr (CValue × CState)
  | 0, _, _ => .error .fuelExhausted
  | fuel + 1, t, st =>
    if st.closed then .error .closedContainer
    else
      match cacheLookup st.cache t with
      | some v => .ok (v, st)
      | none =>
        match findFactory g t with
        | none => .error .noFactory
        | some f =>
          if syncSupported f.kind then
            match resolveDeps (fun d st => resolveSync g fuel d st)
                f.dependencies st with
            | .error e => .error e
            | .ok (args, st1) =>
              match runProducer f.producer args st1 with
              | none => .error .constructionFailed
              | some (v, st2) =>
                let st3 :=
                  if isGeneratorKind f.kind then
                    { st2 with
                      exitActions := st2.exitActions ++ [cleanupFor v] }
                  else st2
                let st4 :=
                  if f.cache then
                    { st3 with cache := st3.cache ++ [(t, v)] }
                  else st3
                .ok (v, st4)
          else .error .notSupportedBySync

/-- Modelled from the spec: `resolve` of the concurrency-aware container
(§4.2, §4.4, the `async_container.py` implementation being absent from
the sources): the identical algorithm, except that suspending kinds
(ASYNC_FACTORY / ASYNC_GENERATOR) are also invocable. -/
def resolveAsync (g : List SFactory) :
    Nat → TypeHint → CState → Except RErr (CValue × CState)
  | 0, _, _ => .error .fuelExhausted
  | fuel + 1, t, st =>
    if st.closed then .error .closedContainer
    else
      match cacheLookup st.cache t with
      | some v => .ok (v, st)
      | none =>
        match findFactory g t with
        | none => .error .noFactory
        | some f =>
          match resolveDeps (fun d st => resolveAsync g fuel d st)
              f.dependencies st with
          | .error e => .error e
          | .ok (args, st1) =>
            match runProducer f.producer args st1 with
            | none => .error .constructionFailed
            | some (v, st2) =>
              let st3 :=
                if isGeneratorKind f.kind then
                  { st2 with
                    exitActions := st2.exitActions ++ [cleanupFor v] }
                else st2
              let st4 :=
                if f.cache then
                  { st3 with cache := st3.cache ++ [(t, v)] }
                else st3
              .ok (v, st4)

/-- The `int` type key of the end-to-end test scenario. -/
def intHint : TypeHint := .classRef "int"

/-- The `ClassA` type key of the end-to-end test scenario. -/
def classAHint : TypeHint := .classRef "ClassA"

/-- Modelled from the spec: the provider graph of the end-to-end test
scenario (the sample providers themselves are absent from the sources) —
`int -> 100` at APP scope and a `ClassA(dep: int)` factory of the given
kind, both cached. -/
def scenarioGraph (k : FactoryType) : List SFactory :=
  [ { provides := intHint, dependencies := [], kind := .FACTORY,
      producer := .constInt 100, cache := true },
    { provides := classAHint, dependencies := [intHint], kind := k,
      producer := .mkClassA, cache := true } ]

/-- Resolve `ClassA` on a fresh plain container and close it, keeping the
returned value and the state after close. -/
def scenarioRunSync (k : FactoryType) : Except RErr (CValue × CState) :=
  (resolveSync (scenarioGraph k) 10 classAHint CState.empty).map
    (fun p => (p.1, (closeContainer p.2).1))

/-- Resolve `ClassA` on a fresh concurrency-aware container and close it,
keeping the returned value and the state after close. -/
def scenarioRunAsync (k : FactoryType) : Except RErr (CValue × CState) :=
  (resolveAsync (scenarioGraph k) 10 classAHint CState.empty).map
    (fun p => (p.1, (closeContainer p.2).1))

/-- The `closed` flag of the instance a scenario run returned, read after
the container was closed. -/
def closedFlagAfter (r : Except RErr (CValue × CState)) : Option Bool :=
  match r with
  | .ok (.ref id, st) => (st.heap.get? id).map AObj.closed
  | _ => none

/-- The `dep` attribute of the instance a scenario run returned. -/
def depAfter (r : Except RErr (CValue × CState)) : Option Int :=
  match r with
  | .ok (.ref id, st) => (st.heap.get? id).map AObj.dep
  | _ => none

/-- Return annotations accepted by `_generator_result` (the branches that
do not raise). -/
def supportedGenHint : TypeHint → Bool
  | .iterable _ => true
  | .iterator _ => true
  | .generator _ _ _ => true
  | _ => false

/-- Return annotations accepted by `_async_generator_result` (the branches
that do not raise). -/
def supportedAsyncGenHint : TypeHint → Bool
  | .asyncIterable _ => true
  | .asyncIterator _ => true
  | .asyncGenerator _ _ => true
  | _ => false

/-! ## Theorems -/

/-- C4: converting an `Alias` with source type `S`, provided type `P` and
cache flag `c` to a factory at scope `L` yields a FACTORY-kind record whose
producing operation is the identity function, whose dependency list is
exactly `[S]`, whose provides is `P`, whose scope is `L` and whose cache
flag is `c`; the identity source returns its single resolved argument
unchanged, so resolving `P` returns exactly the value resolved for `S`. -/
theorem alias_as_factory_identity (a : Alias) (L : BScope) :
    (a.as_factory L).type = FactoryType.FACTORY ∧
    (a.as_factory L).source = Source.identity ∧
    (a.as_factory L).dependencies = [a.source] ∧
    (a.as_factory L).provides = a.provides ∧
    (a.as_factory L).scope = some L ∧
    (a.as_factory L).cache = a.cache ∧
    ∀ v : CValue, callSource (a.as_factory L).source [v] = some v :=
  ⟨rfl, rfl, rfl, rfl, rfl, rfl, fun _ => rfl⟩

/-- C7: binding a to-bind `Factory` template to a concrete provider
instance (attribute access on the instance) yields a fully resolved record:
source bound to the instance, first (self placeholder) dependency removed,
`is_to_bind` false, and provides / kind / cache equal to the template's. -/
theorem factory_get_bind_resolves (f : Factory) (inst : ProviderInstance)
    (h : f.is_to_bind = true) :
    f.get (some inst) = Except.ok {
      dependencies := f.dependencies.drop 1,
      source := bindSource f.source inst.instId,
      provides := f.provides,
      scope := f.scope.orElse (fun _ => inst.scope),
      type := f.type,
      is_to_bind := false,
      cache := f.cache } := by
  cases hs : f.scope <;>
    simp [Factory.get, h, hs, Option.orElse, pure, Except.pure,
      Bind.bind, Except.bind]

/-- Witness for C7 at a concrete to-bind template. -/
theorem factory_get_bind_resolves_witness :
    (Factory.get
      { dependencies := [.anyHint, .classRef "int"], source := .func "m",
        provides := .classRef "A", scope := none, type := .FACTORY,
        is_to_bind := true, cache := true }
      (some { instId := 7, scope := some 1 })) = Except.ok {
      dependencies := [.classRef "int"], source := .boundMethod 7 "m",
      provides := .classRef "A", scope := some 1, type := .FACTORY,
      is_to_bind := false, cache := true } :=
  factory_get_bind_resolves _ _ rfl

/-- C8: an unscoped (`scope=None`) `Factory` bound to a provider instance
takes that instance's scope, while an explicitly scoped one keeps its own
scope through binding. -/
theorem factory_get_scope_resolution (f : Factory)
    (inst : ProviderInstance) :
    (f.scope = none →
      (f.get (some inst)).map Factory.scope = Except.ok inst.scope) ∧
    (∀ s, f.scope = some s →
      (f.get (some inst)).map Factory.scope = Except.ok (some s)) := by
  constructor
  · intro h
    cases hb : f.is_to_bind <;>
      simp [Factory.get, h, hb, Except.map, pure, Except.pure,
        Bind.bind, Except.bind]
  · intro s h
    cases hb : f.is_to_bind <;>
      simp [Factory.get, h, hb, Except.map, pure, Except.pure,
        Bind.bind, Except.bind]

/-- Witness for C8: an unscoped factory takes the provider's scope, an
explicitly scoped one keeps its scope. -/
theorem factory_get_scope_resolution_witness :
    ((Factory.get
        { dependencies := [], source := .func "m",
          provides := .classRef "A", scope := none, type := .FACTORY,
          is_to_bind := false, cache := true }
        (some { instId := 1, scope := some 2 })).map Factory.scope =
      Except.ok (some 2)) ∧
    ((Factory.get
        { dependencies := [], source := .func "m",
          provides := .classRef "A", scope := some 5, type := .FACTORY,
          is_to_bind := false, cache := true }
        (some { instId := 1, scope := some 2 })).map Factory.scope =
      Except.ok (some 5)) :=
  ⟨(factory_get_scope_resolution _ _).1 rfl,
   (factory_get_scope_resolution _ _).2 5 rfl⟩

/-- C10: attribute access on the owning class with no instance returns the
`Factory` itself unmodified when its scope is non-None; the precondition is
needed because `scope = self.scope or instance.scope` runs before the
`instance is None` check, so with scope None the access raises
`AttributeError` instead. -/
theorem factory_get_no_instance_safety (f : Factory) :
    (∀ s, f.scope = some s → f.get none = Except.ok f) ∧
    (f.scope = none →
      f.get none = Except.error (PyError.attributeError
        "NoneType object has no attribute scope")) := by
  constructor
  · intro s h
    simp [Factory.get, h, pure, Except.pure, Bind.bind, Except.bind]
  · intro h
    simp [Factory.get, h, throw, throwThe, MonadExceptOf.throw,
      Functor.map, Except.map]

/-- Witness for C10 at a concrete scoped factory and a concrete unscoped
one. -/
theorem factory_get_no_instance_safety_witness :
    (Factory.get
        { dependencies := [], source := .func "m",
          provides := .classRef "A", scope := some 3, type := .FACTORY,
          is_to_bind := true, cache := true } none =
      Except.ok
        { dependencies := [], source := .func "m",
          provides := .classRef "A", scope := some 3, type := .FACTORY,
          is_to_bind := true, cache := true }) ∧
    (Factory.get
        { dependencies := [], source := .func "m",
          provides := .classRef "A", scope := none, type := .FACTORY,
          is_to_bind := true, cache := true } none =
      Except.error (PyError.attributeError
        "NoneType object has no attribute scope")) :=
  ⟨(factory_get_no_instance_safety _).1 3 rfl,
   (factory_get_no_instance_safety _).2 rfl⟩

/-- C5 counterexample: when the wrapped factory declares the decorated type
twice among its dependencies, `Decorator.as_factory` substitutes BOTH
occurrences with the new key, not just one — so the result differs from
either single-occurrence substitution. -/
theorem decorator_double_dependency_counterexample :
    ((Decorator.ofFactory
        { dependencies := [.classRef "X", .classRef "X"],
          source := .func "wrap", provides := .classRef "X",
          scope := none, type := .FACTORY, is_to_bind := false,
          cache := false }).as_factory none
        (.classRef "X.undecorated") false).dependencies =
      [.classRef "X.undecorated", .classRef "X.undecorated"] ∧
    ([TypeHint.classRef "X.undecorated", .classRef "X.undecorated"] ≠
      [TypeHint.classRef "X.undecorated", .classRef "X"]) ∧
    ([TypeHint.classRef "X.undecorated", .classRef "X.undecorated"] ≠
      [TypeHint.classRef "X", .classRef "X.undecorated"]) := by
  decide

/-- C5 amended: `Decorator.as_factory` substitutes EVERY dependency
occurrence equal to the decorated type with the new key (in particular the
unique one when the decorated type occurs once), leaves every other entry
unchanged at its position, and keeps provides, kind, source and binding
flag of the wrapped factory. -/
theorem decorator_as_factory_substitutes (d : Decorator)
    (scope : Option BScope) (nd : TypeHint) (c : Bool) (i : Nat) :
    (d.as_factory scope nd c).dependencies[i]? =
      (d.factory.dependencies[i]?).map
        (fun dep => if dep = d.provides then nd else dep) ∧
    (d.as_factory scope nd c).provides = d.factory.provides ∧
    (d.as_factory scope nd c).type = d.factory.type ∧
    (d.as_factory scope nd c).source = d.factory.source ∧
    (d.as_factory scope nd c).is_to_bind = d.factory.is_to_bind := by
  refine ⟨?_, rfl, rfl, rfl, rfl⟩
  simp [Decorator.as_factory]

/-- C6 counterexample: a sync generator function annotated
`Generator[A, B, None]` yields a factory providing `B` (the send-type
slot, `get_args(...)[1]`), not the yielded type `A`. -/
theorem generator_send_slot_counterexample :
    (make_factory .noneHint none
        (.func ⟨"gen", [],
          .generator (.classRef "A") (.classRef "B") .noneHint,
          false, true, false⟩)
        true).map Factory.provides = Except.ok (.classRef "B") ∧
    TypeHint.classRef "B" ≠ TypeHint.classRef "A" :=
  ⟨rfl, by decide⟩

/-- C6 amended: provided-type inference for generator functions without
explicit provides reads `Iterable[X]` and `Iterator[X]` as providing `X`,
but `Generator[y, s, r]` as providing `s` (its second type argument); the
async forms `AsyncIterable[X]`, `AsyncIterator[X]` provide `X` and
`AsyncGenerator[y, s]` provides `y` (its first type argument). -/
theorem generator_provides_inference (nm : String) (ps : List PyParam)
    (x y s r : TypeHint) (scope : Option BScope) (c : Bool) :
    (make_factory .noneHint scope
        (.func ⟨nm, ps, .iterable x, false, true, false⟩) c).map
      Factory.provides = Except.ok x ∧
    (make_factory .noneHint scope
        (.func ⟨nm, ps, .iterator x, false, true, false⟩) c).map
      Factory.provides = Except.ok x ∧
    (make_factory .noneHint scope
        (.func ⟨nm, ps, .generator y s r, false, true, false⟩) c).map
      Factory.provides = Except.ok s ∧
    (make_factory .noneHint scope
        (.func ⟨nm, ps, .asyncIterable x, true, false, false⟩) c).map
      Factory.provides = Except.ok x ∧
    (make_factory .noneHint scope
        (.func ⟨nm, ps, .asyncIterator x, true, false, false⟩) c).map
      Factory.provides = Except.ok x ∧
    (make_factory .noneHint scope
        (.func ⟨nm, ps, .asyncGenerator y s, true, false, false⟩) c).map
      Factory.provides = Except.ok y :=
  ⟨rfl, rfl, rfl, rfl, rfl, rfl⟩

/-- `_generator_result` raises on every unsupported annotation. -/
theorem generator_result_unsupported (h : TypeHint)
    (hu : supportedGenHint h = false) :
    _generator_result h =
      .error (.typeError "Unsupported return type for generator") := by
  cases h <;> simp_all [supportedGenHint, _generator_result]

/-- `_async_generator_result` raises on every unsupported annotation. -/
theorem async_generator_result_unsupported (h : TypeHint)
    (hu : supportedAsyncGenHint h = false) :
    _async_generator_result h =
      .error (.typeError
        "Unsupported return type for async generator") := by
  cases h <;> simp_all [supportedAsyncGenHint, _async_generator_result]

/-- C9: `make_factory` raises `TypeError` for a source that is not a
class, function, classmethod, staticmethod or callable object; and for a
(sync or async) generator-function source without explicit provides whose
return annotation is not a supported iterable/iterator/generator form,
provided-type inference raises `TypeError` instead of returning a
factory. -/
theorem make_factory_rejects_unsupported :
    (∀ (provides : TypeHint) (scope : Option BScope) (c : Bool)
        (tn : String),
      make_factory provides scope (.notCallable tn) c =
        .error (.typeError "Cannot use source as a factory")) ∧
    (∀ (scope : Option BScope) (c : Bool) (f : PyFunction),
      f.isGen = true → f.isAsyncGen = false →
      supportedGenHint f.returnHint = false →
      make_factory .noneHint scope (.func f) c =
        .error (.typeError "Unsupported return type for generator") ∧
      make_factory .noneHint scope (.classm f) c =
        .error (.typeError "Unsupported return type for generator") ∧
      make_factory .noneHint scope (.staticm f) c =
        .error (.typeError "Unsupported return type for generator")) ∧
    (∀ (scope : Option BScope) (c : Bool) (f : PyFunction),
      f.isAsyncGen = true →
      supportedAsyncGenHint f.returnHint = false →
      make_factory .noneHint scope (.func f) c =
        .error (.typeError
          "Unsupported return type for async generator") ∧
      make_factory .noneHint scope (.classm f) c =
        .error (.typeError
          "Unsupported return type for async generator") ∧
      make_factory .noneHint scope (.staticm f) c =
        .error (.typeError
          "Unsupported return type for async generator")) := by
  refine ⟨fun _ _ _ _ => rfl, ?_, ?_⟩
  · intro scope c f hg hnag hu
    have hres := generator_result_unsupported f.returnHint hu
    refine ⟨?_, ?_, ?_⟩ <;>
      simp [make_factory, _make_factory_by_method,
        _make_factory_by_static_method, _guess_factory_type, hg, hnag,
        providesAbsent, _clean_result_hint, hres]
  · intro scope c f hag hu
    have hres := async_generator_result_unsupported f.returnHint hu
    refine ⟨?_, ?_, ?_⟩ <;>
      simp [make_factory, _make_factory_by_method,
        _make_factory_by_static_method, _guess_factory_type, hag,
        providesAbsent, _clean_result_hint, hres]

/-- Witness for C9 at concrete inputs: an `int` value as source, and sync /
async generator functions annotated with a bare class. -/
theorem make_factory_rejects_unsupported_witness :
    (make_factory (.classRef "A") none (.notCallable "int") true =
      .error (.typeError "Cannot use source as a factory")) ∧
    (make_factory .noneHint none
        (.func ⟨"g", [], .classRef "A", false, true, false⟩) true =
      .error (.typeError "Unsupported return type for generator")) ∧
    (make_factory .noneHint none
        (.func ⟨"g", [], .classRef "A", true, false, false⟩) true =
      .error (.typeError
        "Unsupported return type for async generator")) :=
  ⟨make_factory_rejects_unsupported.1 (.classRef "A") none true "int",
   (make_factory_rejects_unsupported.2.1 none true
     ⟨"g", [], .classRef "A", false, true, false⟩ rfl rfl rfl).1,
   (make_factory_rejects_unsupported.2.2 none true
     ⟨"g", [], .classRef "A", true, false, false⟩ rfl rfl).1⟩

/-- C1: in the end-to-end scenario (int provided as 100, `ClassA(dep)`
factory of the given kind, both cached), resolving `ClassA` and closing the
container leaves the returned instance's `closed` flag true for the
generator kinds (whose registered cleanup is the generator body after its
yield) and false for the plain factory kinds, on both container variants;
the instance's `dep` is 100. -/
theorem generator_cleanup_end_to_end :
    closedFlagAfter (scenarioRunSync .GENERATOR) = some true ∧
    closedFlagAfter (scenarioRunSync .FACTORY) = some false ∧
    closedFlagAfter (scenarioRunAsync .GENERATOR) = some true ∧
    closedFlagAfter (scenarioRunAsync .ASYNC_GENERATOR) = some true ∧
    closedFlagAfter (scenarioRunAsync .FACTORY) = some false ∧
    closedFlagAfter (scenarioRunAsync .ASYNC_FACTORY) = some false ∧
    depAfter (scenarioRunSync .GENERATOR) = some 100 ∧
    depAfter (scenarioRunSync .FACTORY) = some 100 := by
  decide

/-- `runActions` executes exactly the actions it is given, in order. -/
theorem runActions_trace (acts : List ExitAction) (st : CState) :
    (runActions acts st).2 = acts := by
  induction acts generalizing st with
  | nil => rfl
  | cons a rest ih => simp [runActions, ih]

/-- C2: closing a container runs the registered exit actions in strict
reverse of registration order: for registrations at positions `i < j` of
`exitActions`, the action registered at `j` (later) executes at a strictly
earlier position of the close trace than the action registered at `i`. -/
theorem close_runs_exit_actions_lifo (st : CState) (i j : Nat)
    (hij : i < j) (hj : j < st.exitActions.length) :
    (closeContainer st).2[st.exitActions.length - 1 - j]? =
      st.exitActions[j]? ∧
    (closeContainer st).2[st.exitActions.length - 1 - i]? =
      st.exitActions[i]? ∧
    st.exitActions.length - 1 - j < st.exitActions.length - 1 - i := by
  have htr : (closeContainer st).2 = st.exitActions.reverse := by
    simp [closeContainer, runActions_trace]
  refine ⟨?_, ?_, by omega⟩
  · rw [htr, List.getElem?_reverse (by omega)]
    congr 1
    omega
  · rw [htr, List.getElem?_reverse (by omega)]
    congr 1
    omega

/-- Witness for C2: two registered cleanups; the second-registered one runs
first on close. -/
theorem close_runs_exit_actions_lifo_witness :
    (closeContainer
        { heap := [], cache := [], closed := false,
          exitActions := [.setClosed 0, .setClosed 1] }).2[0]? =
      some (ExitAction.setClosed 1) ∧
    (closeContainer
        { heap := [], cache := [], closed := false,
          exitActions := [.setClosed 0, .setClosed 1] }).2[1]? =
      some (ExitAction.setClosed 0) ∧
    (0 : Nat) < 1 :=
  close_runs_exit_actions_lifo
    { heap := [], cache := [], closed := false,
      exitActions := [.setClosed 0, .setClosed 1] }
    0 1 (by decide) (by decide)

/-- The two container variants compute identical results on every graph
whose factory kinds the plain container supports. -/
theorem resolveSync_eq_resolveAsync (g : List SFactory)
    (h : ∀ f ∈ g, syncSupported f.kind = true) :
    ∀ fuel t st, resolveSync g fuel t st = resolveAsync g fuel t st := by
  intro fuel
  induction fuel with
  | zero => intro t st; rfl
  | succ fuel ih =>
    intro t st
    have hfun : (fun d st => resolveSync g fuel d st) =
        (fun d st => resolveAsync g fuel d st) := by
      funext d st
      exact ih d st
    show resolveSync g (fuel + 1) t st = resolveAsync g (fuel + 1) t st
    simp only [resolveSync, resolveAsync, hfun]
    cases hc : st.closed with
    | true => rfl
    | false =>
      simp only [Bool.false_eq_true, if_false]
      cases hl : cacheLookup st.cache t with
      | some v => rfl
      | none =>
        cases hf : findFactory g t with
        | none => rfl
        | some f =>
          have hs : syncSupported f.kind = true :=
            h f (List.mem_of_find?_eq_some hf)
          simp [hs]

/-- C3: the plain and the concurrency-aware containers have identical
observable semantics for every graph built only from kinds both support:
`resolve` returns the same value with the same resulting cache and
exit-action state, and closing after the resolve produces the same cleanup
effects and trace. -/
theorem sync_async_identical_semantics (g : List SFactory)
    (h : ∀ f ∈ g, syncSupported f.kind = true) (fuel : Nat)
    (t : TypeHint) (st : CState) :
    resolveSync g fuel t st = resolveAsync g fuel t st ∧
    (resolveSync g fuel t st).map (fun p => closeContainer p.2) =
      (resolveAsync g fuel t st).map (fun p => closeContainer p.2) := by
  have he := resolveSync_eq_resolveAsync g h fuel t st
  exact ⟨he, by rw [he]⟩

/-- Witness for C3 on the concrete scenario graph with sync-supported
kinds. -/
theorem sync_async_identical_semantics_witness :
    resolveSync (scenarioGraph .GENERATOR) 10 classAHint CState.empty =
      resolveAsync (scenarioGraph .GENERATOR) 10 classAHint
        CState.empty :=
  (sync_async_identical_semantics (scenarioGraph .GENERATOR)
    (by decide) 10 classAHint CState.empty).1

end Dishka